import Mathlib

/-
Verification of src/backend/scenario_generator.py (and its use in
src/backend/app.py) against the natural-language specification.

The module works on JSON-like Python values (dicts produced by json.loads).
We embed those values as the inductive type Json below, and embed the two
functions of the module:

  - generate_scenario(difficulty)     -> the difficulty check, the credential
    check, the external chat call, json.loads, and the id/language fixup
    (the fixup proper, lines 220-228, is the function fixup below);
  - build_voice_agent_system_prompt(payload) -> composeParts /
    build_voice_agent_system_prompt below.

Python attribute errors (calling .get on a non-dict) are modelled by Option:
a result of none means the Python code raises, some s means it returns s.
Python numbers are embedded as Int (no claim depends on float formatting).
-/

/-- A JSON-like Python value, as returned by json.loads. -/
inductive Json where
  | null
  | bool (b : Bool)
  | num (n : Int)
  | str (s : String)
  | arr (elems : List Json)
  | obj (fields : List (String × Json))

/-- First-match lookup in the field list of a dict. Python dicts have unique
keys, so first match and last match agree on every value this models. -/
def lookupKey : List (String × Json) → String → Option Json
  | [], _ => none
  | kv :: rest, k => if kv.1 = k then some kv.2 else lookupKey rest k

/-- Python d.get(k): the value if present, otherwise None. -/
def lookupKeyD (kvs : List (String × Json)) (k : String) : Json :=
  (lookupKey kvs k).getD Json.null

/-- Python truthiness of a JSON-like value. -/
def truthy : Json → Bool
  | .null => false
  | .bool b => b
  | .num n => !(n == 0)
  | .str s => !(s == "")
  | .arr xs => !xs.isEmpty
  | .obj kvs => !kvs.isEmpty

/-- Python `a or b`. -/
def pyOr (a b : Json) : Json := if truthy a then a else b

/-- Python repr of a JSON-like value (used by str() on lists and dicts).
String escaping inside repr is not modelled; no claim depends on it. -/
def pyRepr : Json → String
  | .null => "None"
  | .bool true => "True"
  | .bool false => "False"
  | .num n => toString n
  | .str s => "\x27" ++ s ++ "\x27"
  | .arr xs => "[" ++ String.intercalate ", " (xs.attach.map (fun x => pyRepr x.1)) ++ "]"
  | .obj fs => "\x7b" ++ String.intercalate ", "
      (fs.attach.map (fun kv => "\x27" ++ kv.1.1 ++ "\x27: " ++ pyRepr kv.1.2)) ++ "\x7d"
decreasing_by
  · have h1 : sizeOf x.1 < sizeOf xs := List.sizeOf_lt_of_mem x.2
    simp only [Json.arr.sizeOf_spec]
    omega
  · have h1 : sizeOf kv.1 < sizeOf fs := List.sizeOf_lt_of_mem kv.2
    have h2 : sizeOf kv.1.2 < sizeOf kv.1 := by
      cases kv.1 with
      | mk a b => simp only [Prod.mk.sizeOf_spec]; omega
    simp only [Json.obj.sizeOf_spec]
    omega

/-- Python str() of a JSON-like value, as used by f-string interpolation. -/
def pyStr : Json → String
  | .str s => s
  | v => pyRepr v

/-- Python dict assignment d[k] = v: replace in place, or append if new. -/
def setKeyList : List (String × Json) → String → Json → List (String × Json)
  | [], k, v => [(k, v)]
  | kv :: rest, k, v => if kv.1 = k then (k, v) :: rest else kv :: setKeyList rest k v

/-- Removing a key from the field list (the experiment of the omission law). -/
def removeKeyList (kvs : List (String × Json)) (k : String) : List (String × Json) :=
  kvs.filter (fun kv => !(kv.1 = k))

/-- Set a key of a dict value; identity on non-dicts. -/
def pySet (j : Json) (k : String) (v : Json) : Json :=
  match j with
  | .obj kvs => .obj (setKeyList kvs k v)
  | _ => j

/-- Remove a key of a dict value; identity on non-dicts. -/
def pyRemove (j : Json) (k : String) : Json :=
  match j with
  | .obj kvs => .obj (removeKeyList kvs k)
  | _ => j

/-- Apply f to the value stored at key k, when present; identity otherwise. -/
def mapField (j : Json) (k : String) (f : Json → Json) : Json :=
  match j with
  | .obj kvs => .obj (kvs.map (fun kv => if kv.1 = k then (kv.1, f kv.2) else kv))
  | _ => j

/-- Plain field access for stating specifications (no Python default). -/
def getField : Json → String → Option Json
  | .obj kvs, k => lookupKey kvs k
  | _, _ => none

-- ---------------------------------------------------------------------------
-- Prompt composer: build_voice_agent_system_prompt (lines 231-296)
-- ---------------------------------------------------------------------------

/-- The fixed bullet order of the caller personal details section. -/
def profileKeys : List String :=
  ["name", "age", "emotion", "gender", "race", "other_relevant_details"]

/-- One bullet line per item, joined by newlines. -/
def mkBullets (xs : List Json) : String :=
  String.intercalate "\n" (xs.map (fun i => "- " ++ pyStr i))

/-- A section of the form: value or ""; if value: heading plus newline plus
the interpolated value. -/
def strSection (heading : String) (v : Json) : Option String :=
  let s := pyOr v (Json.str "")
  if truthy s then some (heading ++ "\n" ++ pyStr s) else none

/-- A list section: include only if the value is a list and non-empty. -/
def listSection (heading : String) (tail : String) (v : Json) : Option String :=
  match v with
  | .arr xs => if xs.isEmpty then none else some (heading ++ "\n" ++ mkBullets xs ++ tail)
  | _ => none

/-- Section 1: Role, from role_instruction. -/
def roleEntry (v : Json) : Option String := strSection "## Role" v

/-- Bullets of the caller personal details section: one per profile key whose
value is neither None nor the empty string. -/
def bulletsOf (cvs : List (String × Json)) : List String :=
  profileKeys.filterMap (fun k =>
    match lookupKeyD cvs k with
    | .null => none
    | .str "" => none
    | v => some ("- " ++ k ++ ": " ++ pyStr v))

/-- The caller personal details section from the caller_profile value after
the `or` defaults; fails (none) when caller_profile is truthy but no dict. -/
def cpPart : Json → Option (Option String)
  | .obj cvs =>
      let bullets := bulletsOf cvs
      some (if bullets.isEmpty then none
            else some ("## Caller personal details" ++ "\n" ++ String.intercalate "\n" bullets))
  | _ => none

/-- Section 2: Caller personal details, from scenario.caller_profile.
Fails (none) when scenario or caller_profile is a truthy non-dict, as the
Python code raises AttributeError there. -/
def profileEntry (scenVal : Json) : Option (Option String) :=
  match pyOr scenVal (Json.obj []) with
  | .obj svs => cpPart (pyOr (lookupKeyD svs "caller_profile") (Json.obj []))
  | _ => none

/-- Section 3: Scenario summary, from scenario_summary_for_agent. -/
def summaryEntry (v : Json) : Option String :=
  strSection "## Scenario summary (ground truth)" v

/-- Section 4: Critical information, from top-level critical_info. -/
def criticalEntry (v : Json) : Option String :=
  listSection "## Critical information to convey (reveal when the operator asks; do not dump all at once)" "" v

/-- Fixed explanatory text appended to the withheld information section. -/
def withheldTail : String :=
  "\nThese are NOT things you are purposely hiding. They are contextual details that help the operator understand the situation better; they simply don\x27t come up until the operator asks the right questions (e.g. suspect description, layout, who else is present). When the operator probes or asks relevant questions, provide these details naturally."

/-- Section 5: Details that emerge with probing, from withheld_information. -/
def withheldEntry (v : Json) : Option String :=
  listSection "## Details that emerge with operator probing" withheldTail v

/-- Section 6: Voice, from persona.voice_description. Fails (none) when
persona is a truthy non-dict. -/
def voiceEntry (personaVal : Json) : Option (Option String) :=
  match pyOr personaVal (Json.obj []) with
  | .obj pvs =>
      let vd := pyOr (lookupKeyD pvs "voice_description") (Json.str "")
      some (if truthy vd
            then some ("## Voice / how to speak" ++ "\n" ++ ("You sound like: " ++ pyStr vd))
            else none)
  | _ => none

/-- Section 7: Dialogue directions, from dialogue_directions. -/
def dialogueEntry (v : Json) : Option String :=
  strSection "## Dialogue / acting directions" v

/-- Section 8: How to react to the operator, from response_behavior. -/
def responseEntry (v : Json) : Option String :=
  listSection "## How to react to the operator" "" v

/-- Section 9: Opening line, from opening_line. -/
def openingEntry (v : Json) : Option String :=
  let s := pyOr v (Json.str "")
  if truthy s
  then some ("## Opening line" ++ "\n" ++
        ("When the call connects, start with something like: \"" ++ pyStr s ++ "\""))
  else none

/-- Section 10: Do NOT say, from do_not_say. -/
def doNotEntry (v : Json) : Option String :=
  listSection "## Do NOT say (stay in character)" "" v

/-- Section 11: Behavioral notes, from behavior_notes. -/
def behaviorEntry (v : Json) : Option String :=
  strSection "## Behavioral notes" v

/-- The eleven section slots of build_voice_agent_system_prompt, in source
order. A slot is none when the section is omitted; the whole computation is
none when the Python code raises (payload not a dict, or a truthy non-dict
scenario, caller_profile or persona). -/
def composeParts (p : Json) : Option (List (Option String)) :=
  match p with
  | .obj kvs => do
      let s1 := roleEntry (lookupKeyD kvs "role_instruction")
      let s2 ← profileEntry (lookupKeyD kvs "scenario")
      let s3 := summaryEntry (lookupKeyD kvs "scenario_summary_for_agent")
      let s4 := criticalEntry (lookupKeyD kvs "critical_info")
      let s5 := withheldEntry (lookupKeyD kvs "withheld_information")
      let s6 ← voiceEntry (lookupKeyD kvs "persona")
      let s7 := dialogueEntry (lookupKeyD kvs "dialogue_directions")
      let s8 := responseEntry (lookupKeyD kvs "response_behavior")
      let s9 := openingEntry (lookupKeyD kvs "opening_line")
      let s10 := doNotEntry (lookupKeyD kvs "do_not_say")
      let s11 := behaviorEntry (lookupKeyD kvs "behavior_notes")
      pure [s1, s2, s3, s4, s5, s6, s7, s8, s9, s10, s11]
  | _ => none

/-- build_voice_agent_system_prompt: the present sections joined by a blank
line. The final Python line returns "" when parts is empty, which agrees
with joining the empty list. -/
def build_voice_agent_system_prompt (p : Json) : Option String :=
  (composeParts p).map (fun l => String.intercalate "\n\n" (l.filterMap id))

-- ---------------------------------------------------------------------------
-- Normalizer: lines 220-228 of generate_scenario
-- ---------------------------------------------------------------------------

/-- Python scenario.get("language") != "en" compares against the exact
string "en"; only the string "en" is equal to it. -/
def isStrEn : Json → Bool
  | .str s => s == "en"
  | _ => false

/-- Lines 222-223: if not scenario.get("id"), assign the generated id.
freshId stands for uuid.uuid4().hex[:8]. -/
def fixId (svs : List (String × Json)) (freshId : String) : List (String × Json) :=
  if truthy (lookupKeyD svs "id") then svs
  else setKeyList svs "id" (Json.str ("scenario-" ++ freshId))

/-- Lines 224-225: if scenario.get("language") != "en", force it to "en". -/
def fixLang (svs : List (String × Json)) : List (String × Json) :=
  if isStrEn (lookupKeyD svs "language") then svs
  else setKeyList svs "language" (Json.str "en")

/-- The id/language fixup of generate_scenario (lines 220-228): read
payload.get("scenario", dict()), assign a fresh id when the present id is
falsy, force language to "en", write the record back. none models the
AttributeError raised when payload or the present scenario is no dict. -/
def fixup (payload : Json) (freshId : String) : Option Json :=
  match payload with
  | .obj kvs =>
      match (lookupKey kvs "scenario").getD (Json.obj []) with
      | .obj svs =>
          some (Json.obj (setKeyList kvs "scenario" (Json.obj (fixLang (fixId svs freshId)))))
      | _ => none
  | _ => none

-- ---------------------------------------------------------------------------
-- generate_scenario (lines 181-228)
-- ---------------------------------------------------------------------------

/-- The Python exceptions generate_scenario can raise, by type and payload.
jsonDecodeError models json.JSONDecodeError, whose doc attribute carries the
whole input text; apiError models exceptions of the OpenAI client;
attributeError models .get called on a non-dict. -/
inductive PyError where
  | valueError (msg : String)
  | jsonDecodeError (doc : String)
  | attributeError (msg : String)
  | apiError (msg : String)
deriving DecidableEq

/-- The external state generate_scenario runs against: apiKey models
os.environ.get("OPENAI_API_KEY"); chatResponse models the outcome of the
chat.completions.create call (error message, or the returned content text);
parse models json.loads (none when the text does not parse as JSON). -/
structure GenEnv where
  apiKey : Option String
  chatResponse : Except String String
  parse : String → Option Json

/-- Python truthiness of an optional environment string. -/
def truthyStr : Option String → Bool
  | none => false
  | some s => !(s == "")

/-- The three difficulty literals the generator accepts. -/
def validDifficulties : List String := ["easy", "medium", "hard"]

/-- The error raised for a difficulty outside the three literals. -/
def invalidDifficultyError : PyError :=
  .valueError "difficulty must be one of: easy, medium, hard"

/-- The error raised when OPENAI_API_KEY is missing or empty. -/
def missingCredentialsError : PyError :=
  .valueError "OPENAI_API_KEY environment variable is not set"

/-- generate_scenario: difficulty check, credential check, external chat
call, json.loads, id/language fixup. freshId stands for uuid.uuid4().hex[:8]. -/
def generate_scenario (env : GenEnv) (freshId : String) (difficulty : String) :
    Except PyError Json :=
  if !(validDifficulties.contains difficulty) then
    .error invalidDifficultyError
  else if !(truthyStr env.apiKey) then
    .error missingCredentialsError
  else
    match env.chatResponse with
    | .error msg => .error (.apiError msg)
    | .ok content =>
        match env.parse content with
        | none => .error (.jsonDecodeError content)
        | some payload =>
            match fixup payload freshId with
            | none => .error (.attributeError "object has no attribute get")
            | some p => .ok p

/-- Recognizer of the InvalidDifficulty failure among results. -/
def isInvalidDifficultyErr : Except PyError Json → Bool
  | .error e => e = invalidDifficultyError
  | .ok _ => false

/-- The diagnostic document retrievable from a failure: json.JSONDecodeError
exposes the full offending text as its doc attribute. -/
def docOf : PyError → Option String
  | .jsonDecodeError doc => some doc
  | _ => none

/-- isinstance(v, dict) of a JSON-like value. -/
def isObjJ : Json → Bool
  | .obj _ => true
  | _ => false

/-- Shape condition under which build_voice_agent_system_prompt cannot raise:
the payload is a dict and none of scenario, scenario.caller_profile, persona
is a truthy non-dict. -/
def safeShape (p : Json) : Bool :=
  match p with
  | .obj kvs =>
      (match pyOr (lookupKeyD kvs "scenario") (Json.obj []) with
       | .obj svs => isObjJ (pyOr (lookupKeyD svs "caller_profile") (Json.obj []))
       | _ => false)
      && isObjJ (pyOr (lookupKeyD kvs "persona") (Json.obj []))
  | _ => false

/-- isinstance(v, list) of a JSON-like value. -/
def isArr : Json → Bool
  | .arr _ => true
  | _ => false

-- ---------------------------------------------------------------------------
-- Association list lemmas
-- ---------------------------------------------------------------------------

theorem lookupKey_setKeyList_self (kvs : List (String × Json)) (k : String) (v : Json) :
    lookupKey (setKeyList kvs k v) k = some v := by
  induction kvs with
  | nil => simp [setKeyList, lookupKey]
  | cons kv rest ih =>
      by_cases h : kv.1 = k
      · simp [setKeyList, h, lookupKey]
      · simp [setKeyList, h, lookupKey, ih]

theorem lookupKey_setKeyList_ne (kvs : List (String × Json)) (k k' : String) (v : Json)
    (h : k' ≠ k) : lookupKey (setKeyList kvs k v) k' = lookupKey kvs k' := by
  induction kvs with
  | nil => simp [setKeyList, lookupKey, Ne.symm h]
  | cons kv rest ih =>
      by_cases hk : kv.1 = k
      · simp [setKeyList, hk, lookupKey, Ne.symm h]
      · by_cases hk' : kv.1 = k'
        · simp [setKeyList, hk, lookupKey, hk', h]
        · simp [setKeyList, hk, lookupKey, hk', ih]

theorem lookupKey_removeKeyList_self (kvs : List (String × Json)) (k : String) :
    lookupKey (removeKeyList kvs k) k = none := by
  induction kvs with
  | nil => simp [removeKeyList, lookupKey]
  | cons kv rest ih =>
      by_cases h : kv.1 = k
      · simpa [removeKeyList, h, lookupKey] using ih
      · simpa [removeKeyList, h, lookupKey] using ih

theorem lookupKey_removeKeyList_ne (kvs : List (String × Json)) (k k' : String)
    (h : k' ≠ k) : lookupKey (removeKeyList kvs k) k' = lookupKey kvs k' := by
  induction kvs with
  | nil => simp [removeKeyList, lookupKey]
  | cons kv rest ih =>
      by_cases hk : kv.1 = k
      · have hne : kv.1 ≠ k' := by rw [hk]; exact Ne.symm h
        simpa [removeKeyList, hk, lookupKey, hne, Ne.symm h] using ih
      · by_cases hk' : kv.1 = k'
        · simp [removeKeyList, hk, lookupKey, hk', h]
        · simpa [removeKeyList, hk, lookupKey, hk'] using ih

theorem lookupKey_mapList_self (kvs : List (String × Json)) (k : String) (f : Json → Json) :
    lookupKey (kvs.map (fun kv => if kv.1 = k then (kv.1, f kv.2) else kv)) k
      = (lookupKey kvs k).map f := by
  induction kvs with
  | nil => simp [lookupKey]
  | cons kv rest ih =>
      by_cases h : kv.1 = k
      · simp [lookupKey, h, ih]
      · simp [lookupKey, h, ih]

theorem lookupKey_mapList_ne (kvs : List (String × Json)) (k k' : String) (f : Json → Json)
    (h : k' ≠ k) :
    lookupKey (kvs.map (fun kv => if kv.1 = k then (kv.1, f kv.2) else kv)) k'
      = lookupKey kvs k' := by
  induction kvs with
  | nil => simp [lookupKey]
  | cons kv rest ih =>
      by_cases hk : kv.1 = k
      · have hne : kv.1 ≠ k' := by rw [hk]; exact Ne.symm h
        simp [lookupKey, hk, hne, ih, Ne.symm h]
      · by_cases hk' : kv.1 = k'
        · simp [lookupKey, hk, hk', h]
        · simp [lookupKey, hk, hk', ih]

theorem lookupKeyD_setKeyList_self (kvs : List (String × Json)) (k : String) (v : Json) :
    lookupKeyD (setKeyList kvs k v) k = v := by
  simp [lookupKeyD, lookupKey_setKeyList_self]

theorem lookupKeyD_setKeyList_ne (kvs : List (String × Json)) (k k' : String) (v : Json)
    (h : k' ≠ k) : lookupKeyD (setKeyList kvs k v) k' = lookupKeyD kvs k' := by
  simp [lookupKeyD, lookupKey_setKeyList_ne kvs k k' v h]

theorem lookupKeyD_removeKeyList_self (kvs : List (String × Json)) (k : String) :
    lookupKeyD (removeKeyList kvs k) k = Json.null := by
  simp [lookupKeyD, lookupKey_removeKeyList_self]

theorem lookupKeyD_removeKeyList_ne (kvs : List (String × Json)) (k k' : String)
    (h : k' ≠ k) : lookupKeyD (removeKeyList kvs k) k' = lookupKeyD kvs k' := by
  simp [lookupKeyD, lookupKey_removeKeyList_ne kvs k k' h]

theorem lookupKeyD_mapList_ne (kvs : List (String × Json)) (k k' : String) (f : Json → Json)
    (h : k' ≠ k) :
    lookupKeyD (kvs.map (fun kv => if kv.1 = k then (kv.1, f kv.2) else kv)) k'
      = lookupKeyD kvs k' := by
  simp [lookupKeyD, lookupKey_mapList_ne kvs k k' f h]

-- ---------------------------------------------------------------------------
-- Section entry lemmas
-- ---------------------------------------------------------------------------

theorem truthy_null : truthy Json.null = false := rfl

theorem truthy_str_empty : truthy (Json.str "") = false := rfl

theorem truthy_obj_nil : truthy (Json.obj []) = false := rfl

theorem strSection_falsy (H : String) (v : Json) (hv : truthy v = false) :
    strSection H v = none := by
  simp [strSection, pyOr, hv, truthy_str_empty]

theorem strSection_truthy (H : String) (v : Json) (hv : truthy v = true) :
    strSection H v = some (H ++ "\n" ++ pyStr v) := by
  simp [strSection, pyOr, hv]

theorem listSection_not_arr (H t : String) (v : Json) (hv : isArr v = false) :
    listSection H t v = none := by
  cases v <;> simp_all [listSection, isArr]

theorem listSection_nil (H t : String) : listSection H t (Json.arr []) = none := by
  simp [listSection]

theorem cpPart_emptyObj : cpPart (Json.obj []) = some none := rfl

theorem profileEntry_null : profileEntry Json.null = some none := rfl

theorem voiceEntry_null : voiceEntry Json.null = some none := rfl

theorem profileEntry_falsy (v : Json) (ht : truthy v = false) :
    profileEntry v = some none := by
  simp [profileEntry, pyOr, ht, cpPart_emptyObj, lookupKeyD, lookupKey, truthy_null]

theorem voiceEntry_falsy (v : Json) (ht : truthy v = false) :
    voiceEntry v = some none := by
  simp [voiceEntry, pyOr, ht, lookupKeyD, lookupKey, truthy_null, truthy_str_empty]

theorem profileEntry_pyRemove_cp (v : Json) (s2 : Option String)
    (h : profileEntry v = some s2) :
    profileEntry (pyRemove v "caller_profile") = some none := by
  by_cases ht : truthy v
  · cases v with
    | obj svs =>
        show profileEntry (Json.obj (removeKeyList svs "caller_profile")) = some none
        unfold profileEntry
        by_cases h2 : truthy (Json.obj (removeKeyList svs "caller_profile"))
        · simp [pyOr, h2, lookupKeyD_removeKeyList_self, cpPart_emptyObj, truthy_null]
        · simp [pyOr, h2, lookupKeyD, lookupKey, cpPart_emptyObj, truthy_null]
    | null => simp [truthy_null] at ht
    | bool b => simp [profileEntry, pyOr, ht] at h
    | num n => simp [profileEntry, pyOr, ht] at h
    | str s => simp [profileEntry, pyOr, ht] at h
    | arr xs => simp [profileEntry, pyOr, ht] at h
  · rw [Bool.not_eq_true] at ht
    cases v with
    | obj svs =>
        have hnil : svs = [] := by
          simpa [truthy, List.isEmpty_iff] using ht
        subst hnil
        rfl
    | null => exact profileEntry_falsy _ ht
    | bool b => exact profileEntry_falsy _ ht
    | num n => exact profileEntry_falsy _ ht
    | str s => exact profileEntry_falsy _ ht
    | arr xs => exact profileEntry_falsy _ ht

theorem profileEntry_pySet_cp_empty (v : Json) (s2 : Option String)
    (h : profileEntry v = some s2) :
    profileEntry (pySet v "caller_profile" (Json.obj [])) = some none := by
  by_cases ht : truthy v
  · cases v with
    | obj svs =>
        show profileEntry (Json.obj (setKeyList svs "caller_profile" (Json.obj []))) = some none
        unfold profileEntry
        by_cases h2 : truthy (Json.obj (setKeyList svs "caller_profile" (Json.obj [])))
        · simp [pyOr, h2, lookupKeyD_setKeyList_self, cpPart_emptyObj, truthy_obj_nil]
        · simp [pyOr, h2, lookupKeyD, lookupKey, cpPart_emptyObj, truthy_null]
    | null => simp [truthy_null] at ht
    | bool b => simp [profileEntry, pyOr, ht] at h
    | num n => simp [profileEntry, pyOr, ht] at h
    | str s => simp [profileEntry, pyOr, ht] at h
    | arr xs => simp [profileEntry, pyOr, ht] at h
  · rw [Bool.not_eq_true] at ht
    cases v with
    | obj svs =>
        have hnil : svs = [] := by
          simpa [truthy, List.isEmpty_iff] using ht
        subst hnil
        rfl
    | null => exact profileEntry_falsy _ ht
    | bool b => exact profileEntry_falsy _ ht
    | num n => exact profileEntry_falsy _ ht
    | str s => exact profileEntry_falsy _ ht
    | arr xs => exact profileEntry_falsy _ ht

theorem voiceEntry_pyRemove_vd (v : Json) (s6 : Option String)
    (h : voiceEntry v = some s6) :
    voiceEntry (pyRemove v "voice_description") = some none := by
  by_cases ht : truthy v
  · cases v with
    | obj pvs =>
        show voiceEntry (Json.obj (removeKeyList pvs "voice_description")) = some none
        unfold voiceEntry
        by_cases h2 : truthy (Json.obj (removeKeyList pvs "voice_description"))
        · simp [pyOr, h2, lookupKeyD_removeKeyList_self, truthy_null, truthy_str_empty]
        · simp [pyOr, h2, lookupKeyD, lookupKey, truthy_null, truthy_str_empty]
    | null => simp [truthy_null] at ht
    | bool b => simp [voiceEntry, pyOr, ht] at h
    | num n => simp [voiceEntry, pyOr, ht] at h
    | str s => simp [voiceEntry, pyOr, ht] at h
    | arr xs => simp [voiceEntry, pyOr, ht] at h
  · rw [Bool.not_eq_true] at ht
    cases v with
    | obj pvs =>
        have hnil : pvs = [] := by
          simpa [truthy, List.isEmpty_iff] using ht
        subst hnil
        rfl
    | null => exact voiceEntry_falsy _ ht
    | bool b => exact voiceEntry_falsy _ ht
    | num n => exact voiceEntry_falsy _ ht
    | str s => exact voiceEntry_falsy _ ht
    | arr xs => exact voiceEntry_falsy _ ht

theorem voiceEntry_pySet_vd_empty (v : Json) (s6 : Option String)
    (h : voiceEntry v = some s6) :
    voiceEntry (pySet v "voice_description" (Json.str "")) = some none := by
  by_cases ht : truthy v
  · cases v with
    | obj pvs =>
        show voiceEntry (Json.obj (setKeyList pvs "voice_description" (Json.str ""))) = some none
        unfold voiceEntry
        by_cases h2 : truthy (Json.obj (setKeyList pvs "voice_description" (Json.str "")))
        · simp [pyOr, h2, lookupKeyD_setKeyList_self, truthy_str_empty]
        · simp [pyOr, h2, lookupKeyD, lookupKey, truthy_null, truthy_str_empty]
    | null => simp [truthy_null] at ht
    | bool b => simp [voiceEntry, pyOr, ht] at h
    | num n => simp [voiceEntry, pyOr, ht] at h
    | str s => simp [voiceEntry, pyOr, ht] at h
    | arr xs => simp [voiceEntry, pyOr, ht] at h
  · rw [Bool.not_eq_true] at ht
    cases v with
    | obj pvs =>
        have hnil : pvs = [] := by
          simpa [truthy, List.isEmpty_iff] using ht
        subst hnil
        rfl
    | null => exact voiceEntry_falsy _ ht
    | bool b => exact voiceEntry_falsy _ ht
    | num n => exact voiceEntry_falsy _ ht
    | str s => exact voiceEntry_falsy _ ht
    | arr xs => exact voiceEntry_falsy _ ht

-- ---------------------------------------------------------------------------
-- Characterization of composeParts on dict payloads
-- ---------------------------------------------------------------------------

theorem composeParts_obj (kvs : List (String × Json)) (s2 s6 : Option String)
    (h2 : profileEntry (lookupKeyD kvs "scenario") = some s2)
    (h6 : voiceEntry (lookupKeyD kvs "persona") = some s6) :
    composeParts (Json.obj kvs) = some
      [roleEntry (lookupKeyD kvs "role_instruction"), s2,
       summaryEntry (lookupKeyD kvs "scenario_summary_for_agent"),
       criticalEntry (lookupKeyD kvs "critical_info"),
       withheldEntry (lookupKeyD kvs "withheld_information"), s6,
       dialogueEntry (lookupKeyD kvs "dialogue_directions"),
       responseEntry (lookupKeyD kvs "response_behavior"),
       openingEntry (lookupKeyD kvs "opening_line"),
       doNotEntry (lookupKeyD kvs "do_not_say"),
       behaviorEntry (lookupKeyD kvs "behavior_notes")] := by
  simp [composeParts, h2, h6]

theorem composeParts_inv (p : Json) (l : List (Option String))
    (h : composeParts p = some l) :
    ∃ kvs s2 s6, p = Json.obj kvs ∧
      profileEntry (lookupKeyD kvs "scenario") = some s2 ∧
      voiceEntry (lookupKeyD kvs "persona") = some s6 ∧
      l = [roleEntry (lookupKeyD kvs "role_instruction"), s2,
           summaryEntry (lookupKeyD kvs "scenario_summary_for_agent"),
           criticalEntry (lookupKeyD kvs "critical_info"),
           withheldEntry (lookupKeyD kvs "withheld_information"), s6,
           dialogueEntry (lookupKeyD kvs "dialogue_directions"),
           responseEntry (lookupKeyD kvs "response_behavior"),
           openingEntry (lookupKeyD kvs "opening_line"),
           doNotEntry (lookupKeyD kvs "do_not_say"),
           behaviorEntry (lookupKeyD kvs "behavior_notes")] := by
  cases p with
  | obj kvs =>
      cases h2 : profileEntry (lookupKeyD kvs "scenario") with
      | none => simp [composeParts, h2] at h
      | some s2 =>
          cases h6 : voiceEntry (lookupKeyD kvs "persona") with
          | none => simp [composeParts, h2, h6] at h
          | some s6 =>
              refine ⟨kvs, s2, s6, rfl, h2, h6, ?_⟩
              rw [composeParts_obj kvs s2 s6 h2 h6] at h
              exact (Option.some_inj.mp h).symm
  | null => simp [composeParts] at h
  | bool b => simp [composeParts] at h
  | num n => simp [composeParts] at h
  | str s => simp [composeParts] at h
  | arr xs => simp [composeParts] at h

theorem build_of_parts (q : Json) (lq : List (Option String))
    (h : composeParts q = some lq) :
    build_voice_agent_system_prompt q = some (String.intercalate "\n\n" (lq.filterMap id)) := by
  simp [build_voice_agent_system_prompt, h]

theorem roleEntry_none_null : roleEntry Json.null = none := rfl
theorem roleEntry_none_empty : roleEntry (Json.str "") = none := rfl
theorem summaryEntry_none_null : summaryEntry Json.null = none := rfl
theorem summaryEntry_none_empty : summaryEntry (Json.str "") = none := rfl
theorem criticalEntry_none_null : criticalEntry Json.null = none := rfl
theorem criticalEntry_none_nil : criticalEntry (Json.arr []) = none := rfl
theorem withheldEntry_none_null : withheldEntry Json.null = none := rfl
theorem withheldEntry_none_nil : withheldEntry (Json.arr []) = none := rfl
theorem dialogueEntry_none_null : dialogueEntry Json.null = none := rfl
theorem dialogueEntry_none_empty : dialogueEntry (Json.str "") = none := rfl
theorem responseEntry_none_null : responseEntry Json.null = none := rfl
theorem responseEntry_none_nil : responseEntry (Json.arr []) = none := rfl
theorem openingEntry_none_null : openingEntry Json.null = none := rfl
theorem openingEntry_none_empty : openingEntry (Json.str "") = none := rfl
theorem doNotEntry_none_null : doNotEntry Json.null = none := rfl
theorem doNotEntry_none_nil : doNotEntry (Json.arr []) = none := rfl
theorem behaviorEntry_none_null : behaviorEntry Json.null = none := rfl
theorem behaviorEntry_none_empty : behaviorEntry (Json.str "") = none := rfl

theorem composeParts_mapScenario (kvs : List (String × Json)) (s2 s6 : Option String)
    (h2 : profileEntry (lookupKeyD kvs "scenario") = some s2)
    (h6 : voiceEntry (lookupKeyD kvs "persona") = some s6)
    (f : Json → Json)
    (hf : ∀ v, profileEntry v = some s2 → profileEntry (f v) = some none) :
    composeParts (mapField (Json.obj kvs) "scenario" f) = some
      [roleEntry (lookupKeyD kvs "role_instruction"), none,
       summaryEntry (lookupKeyD kvs "scenario_summary_for_agent"),
       criticalEntry (lookupKeyD kvs "critical_info"),
       withheldEntry (lookupKeyD kvs "withheld_information"), s6,
       dialogueEntry (lookupKeyD kvs "dialogue_directions"),
       responseEntry (lookupKeyD kvs "response_behavior"),
       openingEntry (lookupKeyD kvs "opening_line"),
       doNotEntry (lookupKeyD kvs "do_not_say"),
       behaviorEntry (lookupKeyD kvs "behavior_notes")] := by
  show composeParts
      (Json.obj (kvs.map (fun kv => if kv.1 = "scenario" then (kv.1, f kv.2) else kv))) = _
  have hprof : profileEntry (lookupKeyD
      (kvs.map (fun kv => if kv.1 = "scenario" then (kv.1, f kv.2) else kv)) "scenario")
      = some none := by
    cases hs : lookupKey kvs "scenario" with
    | none =>
        have hD : lookupKeyD
            (kvs.map (fun kv => if kv.1 = "scenario" then (kv.1, f kv.2) else kv)) "scenario"
            = Json.null := by
          simp [lookupKeyD, lookupKey_mapList_self, hs]
        rw [hD]; exact profileEntry_null
    | some v =>
        have hD : lookupKeyD
            (kvs.map (fun kv => if kv.1 = "scenario" then (kv.1, f kv.2) else kv)) "scenario"
            = f v := by
          simp [lookupKeyD, lookupKey_mapList_self, hs]
        have hv : lookupKeyD kvs "scenario" = v := by simp [lookupKeyD, hs]
        rw [hD]; exact hf v (hv ▸ h2)
  rw [composeParts_obj _ none s6 hprof
    (by rw [lookupKeyD_mapList_ne kvs "scenario" "persona" f (by decide)]; exact h6)]
  simp [lookupKeyD_mapList_ne]

theorem composeParts_mapPersona (kvs : List (String × Json)) (s2 s6 : Option String)
    (h2 : profileEntry (lookupKeyD kvs "scenario") = some s2)
    (h6 : voiceEntry (lookupKeyD kvs "persona") = some s6)
    (f : Json → Json)
    (hf : ∀ v, voiceEntry v = some s6 → voiceEntry (f v) = some none) :
    composeParts (mapField (Json.obj kvs) "persona" f) = some
      [roleEntry (lookupKeyD kvs "role_instruction"), s2,
       summaryEntry (lookupKeyD kvs "scenario_summary_for_agent"),
       criticalEntry (lookupKeyD kvs "critical_info"),
       withheldEntry (lookupKeyD kvs "withheld_information"), none,
       dialogueEntry (lookupKeyD kvs "dialogue_directions"),
       responseEntry (lookupKeyD kvs "response_behavior"),
       openingEntry (lookupKeyD kvs "opening_line"),
       doNotEntry (lookupKeyD kvs "do_not_say"),
       behaviorEntry (lookupKeyD kvs "behavior_notes")] := by
  show composeParts
      (Json.obj (kvs.map (fun kv => if kv.1 = "persona" then (kv.1, f kv.2) else kv))) = _
  have hvoice : voiceEntry (lookupKeyD
      (kvs.map (fun kv => if kv.1 = "persona" then (kv.1, f kv.2) else kv)) "persona")
      = some none := by
    cases hs : lookupKey kvs "persona" with
    | none =>
        have hD : lookupKeyD
            (kvs.map (fun kv => if kv.1 = "persona" then (kv.1, f kv.2) else kv)) "persona"
            = Json.null := by
          simp [lookupKeyD, lookupKey_mapList_self, hs]
        rw [hD]; exact voiceEntry_null
    | some v =>
        have hD : lookupKeyD
            (kvs.map (fun kv => if kv.1 = "persona" then (kv.1, f kv.2) else kv)) "persona"
            = f v := by
          simp [lookupKeyD, lookupKey_mapList_self, hs]
        have hv : lookupKeyD kvs "persona" = v := by simp [lookupKeyD, hs]
        rw [hD]; exact hf v (hv ▸ h6)
  rw [composeParts_obj _ s2 none
    (by rw [lookupKeyD_mapList_ne kvs "persona" "scenario" f (by decide)]; exact h2) hvoice]
  simp [lookupKeyD_mapList_ne]

-- ---------------------------------------------------------------------------
-- Claim theorems
-- ---------------------------------------------------------------------------

/-- C1: Omission law for build_voice_agent_system_prompt. For every payload
with a defined composed prompt (section list l), removing the underlying
field of any one of the eleven optional sections, or making it empty, yields
the prompt obtained from l by blanking exactly that section slot: the
removed section contributes nothing and every other section is unchanged.
The underlying fields are, in order: role_instruction,
scenario.caller_profile, scenario_summary_for_agent, critical_info,
withheld_information, persona.voice_description, dialogue_directions,
response_behavior, opening_line, do_not_say, behavior_notes. -/
theorem c1_omission_law (p : Json) (l : List (Option String))
    (h : composeParts p = some l) :
    build_voice_agent_system_prompt p
      = some (String.intercalate "\n\n" (l.filterMap id)) ∧
    build_voice_agent_system_prompt (pyRemove p "role_instruction")
      = some (String.intercalate "\n\n" ((l.set 0 none).filterMap id)) ∧
    build_voice_agent_system_prompt (mapField p "scenario" (fun s => pyRemove s "caller_profile"))
      = some (String.intercalate "\n\n" ((l.set 1 none).filterMap id)) ∧
    build_voice_agent_system_prompt (pyRemove p "scenario_summary_for_agent")
      = some (String.intercalate "\n\n" ((l.set 2 none).filterMap id)) ∧
    build_voice_agent_system_prompt (pyRemove p "critical_info")
      = some (String.intercalate "\n\n" ((l.set 3 none).filterMap id)) ∧
    build_voice_agent_system_prompt (pyRemove p "withheld_information")
      = some (String.intercalate "\n\n" ((l.set 4 none).filterMap id)) ∧
    build_voice_agent_system_prompt (mapField p "persona" (fun s => pyRemove s "voice_description"))
      = some (String.intercalate "\n\n" ((l.set 5 none).filterMap id)) ∧
    build_voice_agent_system_prompt (pyRemove p "dialogue_directions")
      = some (String.intercalate "\n\n" ((l.set 6 none).filterMap id)) ∧
    build_voice_agent_system_prompt (pyRemove p "response_behavior")
      = some (String.intercalate "\n\n" ((l.set 7 none).filterMap id)) ∧
    build_voice_agent_system_prompt (pyRemove p "opening_line")
      = some (String.intercalate "\n\n" ((l.set 8 none).filterMap id)) ∧
    build_voice_agent_system_prompt (pyRemove p "do_not_say")
      = some (String.intercalate "\n\n" ((l.set 9 none).filterMap id)) ∧
    build_voice_agent_system_prompt (pyRemove p "behavior_notes")
      = some (String.intercalate "\n\n" ((l.set 10 none).filterMap id)) ∧
    build_voice_agent_system_prompt (pySet p "role_instruction" (Json.str ""))
      = some (String.intercalate "\n\n" ((l.set 0 none).filterMap id)) ∧
    build_voice_agent_system_prompt (mapField p "scenario" (fun s => pySet s "caller_profile" (Json.obj [])))
      = some (String.intercalate "\n\n" ((l.set 1 none).filterMap id)) ∧
    build_voice_agent_system_prompt (pySet p "scenario_summary_for_agent" (Json.str ""))
      = some (String.intercalate "\n\n" ((l.set 2 none).filterMap id)) ∧
    build_voice_agent_system_prompt (pySet p "critical_info" (Json.arr []))
      = some (String.intercalate "\n\n" ((l.set 3 none).filterMap id)) ∧
    build_voice_agent_system_prompt (pySet p "withheld_information" (Json.arr []))
      = some (String.intercalate "\n\n" ((l.set 4 none).filterMap id)) ∧
    build_voice_agent_system_prompt (mapField p "persona" (fun s => pySet s "voice_description" (Json.str "")))
      = some (String.intercalate "\n\n" ((l.set 5 none).filterMap id)) ∧
    build_voice_agent_system_prompt (pySet p "dialogue_directions" (Json.str ""))
      = some (String.intercalate "\n\n" ((l.set 6 none).filterMap id)) ∧
    build_voice_agent_system_prompt (pySet p "response_behavior" (Json.arr []))
      = some (String.intercalate "\n\n" ((l.set 7 none).filterMap id)) ∧
    build_voice_agent_system_prompt (pySet p "opening_line" (Json.str ""))
      = some (String.intercalate "\n\n" ((l.set 8 none).filterMap id)) ∧
    build_voice_agent_system_prompt (pySet p "do_not_say" (Json.arr []))
      = some (String.intercalate "\n\n" ((l.set 9 none).filterMap id)) ∧
    build_voice_agent_system_prompt (pySet p "behavior_notes" (Json.str ""))
      = some (String.intercalate "\n\n" ((l.set 10 none).filterMap id)) := by
  obtain ⟨kvs, s2, s6, hp, h2, h6, hl⟩ := composeParts_inv p l h
  subst hp; subst hl
  have R : ∀ k : String, k ≠ "scenario" → k ≠ "persona" →
      composeParts (Json.obj (removeKeyList kvs k)) = some
        [roleEntry (lookupKeyD (removeKeyList kvs k) "role_instruction"), s2,
         summaryEntry (lookupKeyD (removeKeyList kvs k) "scenario_summary_for_agent"),
         criticalEntry (lookupKeyD (removeKeyList kvs k) "critical_info"),
         withheldEntry (lookupKeyD (removeKeyList kvs k) "withheld_information"), s6,
         dialogueEntry (lookupKeyD (removeKeyList kvs k) "dialogue_directions"),
         responseEntry (lookupKeyD (removeKeyList kvs k) "response_behavior"),
         openingEntry (lookupKeyD (removeKeyList kvs k) "opening_line"),
         doNotEntry (lookupKeyD (removeKeyList kvs k) "do_not_say"),
         behaviorEntry (lookupKeyD (removeKeyList kvs k) "behavior_notes")] := by
    intro k hk1 hk2
    exact composeParts_obj _ s2 s6
      (by rw [lookupKeyD_removeKeyList_ne kvs k "scenario" (Ne.symm hk1)]; exact h2)
      (by rw [lookupKeyD_removeKeyList_ne kvs k "persona" (Ne.symm hk2)]; exact h6)
  have S : ∀ (k : String) (v : Json), k ≠ "scenario" → k ≠ "persona" →
      composeParts (Json.obj (setKeyList kvs k v)) = some
        [roleEntry (lookupKeyD (setKeyList kvs k v) "role_instruction"), s2,
         summaryEntry (lookupKeyD (setKeyList kvs k v) "scenario_summary_for_agent"),
         criticalEntry (lookupKeyD (setKeyList kvs k v) "critical_info"),
         withheldEntry (lookupKeyD (setKeyList kvs k v) "withheld_information"), s6,
         dialogueEntry (lookupKeyD (setKeyList kvs k v) "dialogue_directions"),
         responseEntry (lookupKeyD (setKeyList kvs k v) "response_behavior"),
         openingEntry (lookupKeyD (setKeyList kvs k v) "opening_line"),
         doNotEntry (lookupKeyD (setKeyList kvs k v) "do_not_say"),
         behaviorEntry (lookupKeyD (setKeyList kvs k v) "behavior_notes")] := by
    intro k v hk1 hk2
    exact composeParts_obj _ s2 s6
      (by rw [lookupKeyD_setKeyList_ne kvs k "scenario" v (Ne.symm hk1)]; exact h2)
      (by rw [lookupKeyD_setKeyList_ne kvs k "persona" v (Ne.symm hk2)]; exact h6)
  refine ⟨build_of_parts _ _ h, ?_, ?_, ?_, ?_, ?_, ?_, ?_, ?_, ?_, ?_, ?_,
         ?_, ?_, ?_, ?_, ?_, ?_, ?_, ?_, ?_, ?_, ?_⟩
  · refine build_of_parts _ _ ?_
    rw [show pyRemove (Json.obj kvs) "role_instruction"
          = Json.obj (removeKeyList kvs "role_instruction") from rfl]
    rw [R "role_instruction" (by decide) (by decide)]
    simp [lookupKeyD_removeKeyList_ne, lookupKeyD_removeKeyList_self, roleEntry_none_null,
      List.set]
  · refine build_of_parts _ _ ?_
    rw [composeParts_mapScenario kvs s2 s6 h2 h6 (fun s => pyRemove s "caller_profile")
      (fun v hv => profileEntry_pyRemove_cp v s2 hv)]
    simp [List.set]
  · refine build_of_parts _ _ ?_
    rw [show pyRemove (Json.obj kvs) "scenario_summary_for_agent"
          = Json.obj (removeKeyList kvs "scenario_summary_for_agent") from rfl]
    rw [R "scenario_summary_for_agent" (by decide) (by decide)]
    simp [lookupKeyD_removeKeyList_ne, lookupKeyD_removeKeyList_self, summaryEntry_none_null,
      List.set]
  · refine build_of_parts _ _ ?_
    rw [show pyRemove (Json.obj kvs) "critical_info"
          = Json.obj (removeKeyList kvs "critical_info") from rfl]
    rw [R "critical_info" (by decide) (by decide)]
    simp [lookupKeyD_removeKeyList_ne, lookupKeyD_removeKeyList_self, criticalEntry_none_null,
      List.set]
  · refine build_of_parts _ _ ?_
    rw [show pyRemove (Json.obj kvs) "withheld_information"
          = Json.obj (removeKeyList kvs "withheld_information") from rfl]
    rw [R "withheld_information" (by decide) (by decide)]
    simp [lookupKeyD_removeKeyList_ne, lookupKeyD_removeKeyList_self, withheldEntry_none_null,
      List.set]
  · refine build_of_parts _ _ ?_
    rw [composeParts_mapPersona kvs s2 s6 h2 h6 (fun s => pyRemove s "voice_description")
      (fun v hv => voiceEntry_pyRemove_vd v s6 hv)]
    simp [List.set]
  · refine build_of_parts _ _ ?_
    rw [show pyRemove (Json.obj kvs) "dialogue_directions"
          = Json.obj (removeKeyList kvs "dialogue_directions") from rfl]
    rw [R "dialogue_directions" (by decide) (by decide)]
    simp [lookupKeyD_removeKeyList_ne, lookupKeyD_removeKeyList_self, dialogueEntry_none_null,
      List.set]
  · refine build_of_parts _ _ ?_
    rw [show pyRemove (Json.obj kvs) "response_behavior"
          = Json.obj (removeKeyList kvs "response_behavior") from rfl]
    rw [R "response_behavior" (by decide) (by decide)]
    simp [lookupKeyD_removeKeyList_ne, lookupKeyD_removeKeyList_self, responseEntry_none_null,
      List.set]
  · refine build_of_parts _ _ ?_
    rw [show pyRemove (Json.obj kvs) "opening_line"
          = Json.obj (removeKeyList kvs "opening_line") from rfl]
    rw [R "opening_line" (by decide) (by decide)]
    simp [lookupKeyD_removeKeyList_ne, lookupKeyD_removeKeyList_self, openingEntry_none_null,
      List.set]
  · refine build_of_parts _ _ ?_
    rw [show pyRemove (Json.obj kvs) "do_not_say"
          = Json.obj (removeKeyList kvs "do_not_say") from rfl]
    rw [R "do_not_say" (by decide) (by decide)]
    simp [lookupKeyD_removeKeyList_ne, lookupKeyD_removeKeyList_self, doNotEntry_none_null,
      List.set]
  · refine build_of_parts _ _ ?_
    rw [show pyRemove (Json.obj kvs) "behavior_notes"
          = Json.obj (removeKeyList kvs "behavior_notes") from rfl]
    rw [R "behavior_notes" (by decide) (by decide)]
    simp [lookupKeyD_removeKeyList_ne, lookupKeyD_removeKeyList_self, behaviorEntry_none_null,
      List.set]
  · refine build_of_parts _ _ ?_
    rw [show pySet (Json.obj kvs) "role_instruction" (Json.str "")
          = Json.obj (setKeyList kvs "role_instruction" (Json.str "")) from rfl]
    rw [S "role_instruction" (Json.str "") (by decide) (by decide)]
    simp [lookupKeyD_setKeyList_ne, lookupKeyD_setKeyList_self, roleEntry_none_empty,
      List.set]
  · refine build_of_parts _ _ ?_
    rw [composeParts_mapScenario kvs s2 s6 h2 h6 (fun s => pySet s "caller_profile" (Json.obj []))
      (fun v hv => profileEntry_pySet_cp_empty v s2 hv)]
    simp [List.set]
  · refine build_of_parts _ _ ?_
    rw [show pySet (Json.obj kvs) "scenario_summary_for_agent" (Json.str "")
          = Json.obj (setKeyList kvs "scenario_summary_for_agent" (Json.str "")) from rfl]
    rw [S "scenario_summary_for_agent" (Json.str "") (by decide) (by decide)]
    simp [lookupKeyD_setKeyList_ne, lookupKeyD_setKeyList_self, summaryEntry_none_empty,
      List.set]
  · refine build_of_parts _ _ ?_
    rw [show pySet (Json.obj kvs) "critical_info" (Json.arr [])
          = Json.obj (setKeyList kvs "critical_info" (Json.arr [])) from rfl]
    rw [S "critical_info" (Json.arr []) (by decide) (by decide)]
    simp [lookupKeyD_setKeyList_ne, lookupKeyD_setKeyList_self, criticalEntry_none_nil,
      List.set]
  · refine build_of_parts _ _ ?_
    rw [show pySet (Json.obj kvs) "withheld_information" (Json.arr [])
          = Json.obj (setKeyList kvs "withheld_information" (Json.arr [])) from rfl]
    rw [S "withheld_information" (Json.arr []) (by decide) (by decide)]
    simp [lookupKeyD_setKeyList_ne, lookupKeyD_setKeyList_self, withheldEntry_none_nil,
      List.set]
  · refine build_of_parts _ _ ?_
    rw [composeParts_mapPersona kvs s2 s6 h2 h6 (fun s => pySet s "voice_description" (Json.str ""))
      (fun v hv => voiceEntry_pySet_vd_empty v s6 hv)]
    simp [List.set]
  · refine build_of_parts _ _ ?_
    rw [show pySet (Json.obj kvs) "dialogue_directions" (Json.str "")
          = Json.obj (setKeyList kvs "dialogue_directions" (Json.str "")) from rfl]
    rw [S "dialogue_directions" (Json.str "") (by decide) (by decide)]
    simp [lookupKeyD_setKeyList_ne, lookupKeyD_setKeyList_self, dialogueEntry_none_empty,
      List.set]
  · refine build_of_parts _ _ ?_
    rw [show pySet (Json.obj kvs) "response_behavior" (Json.arr [])
          = Json.obj (setKeyList kvs "response_behavior" (Json.arr [])) from rfl]
    rw [S "response_behavior" (Json.arr []) (by decide) (by decide)]
    simp [lookupKeyD_setKeyList_ne, lookupKeyD_setKeyList_self, responseEntry_none_nil,
      List.set]
  · refine build_of_parts _ _ ?_
    rw [show pySet (Json.obj kvs) "opening_line" (Json.str "")
          = Json.obj (setKeyList kvs "opening_line" (Json.str "")) from rfl]
    rw [S "opening_line" (Json.str "") (by decide) (by decide)]
    simp [lookupKeyD_setKeyList_ne, lookupKeyD_setKeyList_self, openingEntry_none_empty,
      List.set]
  · refine build_of_parts _ _ ?_
    rw [show pySet (Json.obj kvs) "do_not_say" (Json.arr [])
          = Json.obj (setKeyList kvs "do_not_say" (Json.arr [])) from rfl]
    rw [S "do_not_say" (Json.arr []) (by decide) (by decide)]
    simp [lookupKeyD_setKeyList_ne, lookupKeyD_setKeyList_self, doNotEntry_none_nil,
      List.set]
  · refine build_of_parts _ _ ?_
    rw [show pySet (Json.obj kvs) "behavior_notes" (Json.str "")
          = Json.obj (setKeyList kvs "behavior_notes" (Json.str "")) from rfl]
    rw [S "behavior_notes" (Json.str "") (by decide) (by decide)]
    simp [lookupKeyD_setKeyList_ne, lookupKeyD_setKeyList_self, behaviorEntry_none_empty,
      List.set]

theorem strSection_eq (H : String) (v : Json) :
    strSection H v = if truthy (pyOr v (Json.str "")) = true
      then some (H ++ "\n" ++ pyStr (pyOr v (Json.str ""))) else none := rfl

theorem strSection_inv (H : String) (v : Json) (s : String)
    (h : strSection H v = some s) : ∃ b, s = H ++ "\n" ++ b := by
  rw [strSection_eq] at h
  split at h
  · exact ⟨pyStr (pyOr v (Json.str "")), (Option.some_inj.mp h).symm⟩
  · exact absurd h (by simp)

theorem listSection_inv (H t : String) (v : Json) (s : String)
    (h : listSection H t v = some s) : ∃ b, s = H ++ "\n" ++ b := by
  cases v with
  | arr xs =>
      simp only [listSection] at h
      split at h
      · exact absurd h (by simp)
      · refine ⟨mkBullets xs ++ t, ?_⟩
        rw [← String.append_assoc]
        exact (Option.some_inj.mp h).symm
  | null => simp [listSection] at h
  | bool b => simp [listSection] at h
  | num n => simp [listSection] at h
  | str s2 => simp [listSection] at h
  | obj kvs => simp [listSection] at h

theorem cpPart_inv (v : Json) (s : String)
    (h : cpPart v = some (some s)) :
    ∃ b, s = "## Caller personal details" ++ "\n" ++ b := by
  cases v with
  | obj cvs =>
      simp only [cpPart] at h
      split at h
      · exact absurd h (by simp)
      · exact ⟨String.intercalate "\n" (bulletsOf cvs),
          (Option.some_inj.mp (Option.some_inj.mp h)).symm⟩
  | null => simp [cpPart] at h
  | bool b => simp [cpPart] at h
  | num n => simp [cpPart] at h
  | str s2 => simp [cpPart] at h
  | arr xs => simp [cpPart] at h

theorem profileEntry_inv (v : Json) (s : String)
    (h : profileEntry v = some (some s)) :
    ∃ b, s = "## Caller personal details" ++ "\n" ++ b := by
  unfold profileEntry at h
  split at h
  · exact cpPart_inv _ _ h
  · exact absurd h (by simp)

theorem voiceEntry_eq_obj (v : Json) (pvs : List (String × Json))
    (hp : pyOr v (Json.obj []) = Json.obj pvs) :
    voiceEntry v = some (if truthy (pyOr (lookupKeyD pvs "voice_description") (Json.str "")) = true
      then some ("## Voice / how to speak" ++ "\n" ++
        ("You sound like: " ++ pyStr (pyOr (lookupKeyD pvs "voice_description") (Json.str ""))))
      else none) := by
  unfold voiceEntry
  rw [hp]

theorem voiceEntry_inv (v : Json) (s : String)
    (h : voiceEntry v = some (some s)) :
    ∃ b, s = "## Voice / how to speak" ++ "\n" ++ b := by
  cases hp : pyOr v (Json.obj []) with
  | obj pvs =>
      rw [voiceEntry_eq_obj v pvs hp] at h
      have h2 := Option.some_inj.mp h
      split at h2
      · exact ⟨_, (Option.some_inj.mp h2).symm⟩
      · exact absurd h2 (by simp)
  | null => rw [show voiceEntry v = none by unfold voiceEntry; rw [hp]] at h; exact absurd h (by simp)
  | bool b => rw [show voiceEntry v = none by unfold voiceEntry; rw [hp]] at h; exact absurd h (by simp)
  | num n => rw [show voiceEntry v = none by unfold voiceEntry; rw [hp]] at h; exact absurd h (by simp)
  | str s2 => rw [show voiceEntry v = none by unfold voiceEntry; rw [hp]] at h; exact absurd h (by simp)
  | arr xs => rw [show voiceEntry v = none by unfold voiceEntry; rw [hp]] at h; exact absurd h (by simp)

theorem openingEntry_inv (v : Json) (s : String)
    (h : openingEntry v = some s) :
    ∃ b, s = "## Opening line" ++ "\n" ++ b := by
  rw [show openingEntry v = (if truthy (pyOr v (Json.str "")) = true
      then some ("## Opening line" ++ "\n" ++
        ("When the call connects, start with something like: \"" ++ pyStr (pyOr v (Json.str "")) ++ "\""))
      else none) from rfl] at h
  split at h
  · exact ⟨_, (Option.some_inj.mp h).symm⟩
  · exact absurd h (by simp)

/-- C2: Ordering law. For every payload in which all eleven sections are
present, the composed prompt is exactly the eleven section strings joined by
a blank line, in the fixed order Role, Caller personal details, Scenario
summary, Critical information to convey, Details that emerge with operator
probing, Voice, Dialogue directions, How to react to the operator, Opening
line, Do NOT say, Behavioral notes: each section string starts with the
corresponding heading of the source. -/
theorem c2_ordering_law (p : Json)
    (s1 s2 s3 s4 s5 s6 s7 s8 s9 s10 s11 : String)
    (h : composeParts p = some [some s1, some s2, some s3, some s4, some s5, some s6,
        some s7, some s8, some s9, some s10, some s11]) :
    build_voice_agent_system_prompt p = some (String.intercalate "\n\n"
        [s1, s2, s3, s4, s5, s6, s7, s8, s9, s10, s11]) ∧
    (∃ b, s1 = "## Role" ++ "\n" ++ b) ∧
    (∃ b, s2 = "## Caller personal details" ++ "\n" ++ b) ∧
    (∃ b, s3 = "## Scenario summary (ground truth)" ++ "\n" ++ b) ∧
    (∃ b, s4 = "## Critical information to convey (reveal when the operator asks; do not dump all at once)" ++ "\n" ++ b) ∧
    (∃ b, s5 = "## Details that emerge with operator probing" ++ "\n" ++ b) ∧
    (∃ b, s6 = "## Voice / how to speak" ++ "\n" ++ b) ∧
    (∃ b, s7 = "## Dialogue / acting directions" ++ "\n" ++ b) ∧
    (∃ b, s8 = "## How to react to the operator" ++ "\n" ++ b) ∧
    (∃ b, s9 = "## Opening line" ++ "\n" ++ b) ∧
    (∃ b, s10 = "## Do NOT say (stay in character)" ++ "\n" ++ b) ∧
    (∃ b, s11 = "## Behavioral notes" ++ "\n" ++ b) := by
  obtain ⟨kvs, t2, t6, hp, h2, h6, hl⟩ := composeParts_inv p _ h
  simp only [List.cons.injEq, and_true] at hl
  obtain ⟨e1, e2, e3, e4, e5, e6, e7, e8, e9, e10, e11⟩ := hl
  refine ⟨by simpa using build_of_parts _ _ h, ?_, ?_, ?_, ?_, ?_, ?_, ?_, ?_, ?_, ?_, ?_⟩
  · exact strSection_inv _ _ _ e1.symm
  · exact profileEntry_inv _ _ (e2 ▸ h2)
  · exact strSection_inv _ _ _ e3.symm
  · exact listSection_inv _ _ _ _ e4.symm
  · exact listSection_inv _ _ _ _ e5.symm
  · exact voiceEntry_inv _ _ (e6 ▸ h6)
  · exact strSection_inv _ _ _ e7.symm
  · exact listSection_inv _ _ _ _ e8.symm
  · exact openingEntry_inv _ _ e9.symm
  · exact listSection_inv _ _ _ _ e10.symm
  · exact strSection_inv _ _ _ e11.symm

theorem c2_ordering_law_witness :
    composeParts (Json.obj [
      ("role_instruction", Json.str "R"),
      ("scenario", Json.obj [("caller_profile", Json.obj [("name", Json.str "Maria")])]),
      ("scenario_summary_for_agent", Json.str "S"),
      ("critical_info", Json.arr [Json.str "c"]),
      ("withheld_information", Json.arr [Json.str "w"]),
      ("persona", Json.obj [("voice_description", Json.str "V")]),
      ("dialogue_directions", Json.str "D"),
      ("response_behavior", Json.arr [Json.str "r"]),
      ("opening_line", Json.str "O"),
      ("do_not_say", Json.arr [Json.str "d"]),
      ("behavior_notes", Json.str "B")])
    = some [some "## Role\nR",
        some "## Caller personal details\n- name: Maria",
        some "## Scenario summary (ground truth)\nS",
        some "## Critical information to convey (reveal when the operator asks; do not dump all at once)\n- c",
        some "## Details that emerge with operator probing\n- w\nThese are NOT things you are purposely hiding. They are contextual details that help the operator understand the situation better; they simply don\x27t come up until the operator asks the right questions (e.g. suspect description, layout, who else is present). When the operator probes or asks relevant questions, provide these details naturally.",
        some "## Voice / how to speak\nYou sound like: V",
        some "## Dialogue / acting directions\nD",
        some "## How to react to the operator\n- r",
        some "## Opening line\nWhen the call connects, start with something like: \"O\"",
        some "## Do NOT say (stay in character)\n- d",
        some "## Behavioral notes\nB"] ∧
    build_voice_agent_system_prompt (Json.obj [
      ("role_instruction", Json.str "R"),
      ("scenario", Json.obj [("caller_profile", Json.obj [("name", Json.str "Maria")])]),
      ("scenario_summary_for_agent", Json.str "S"),
      ("critical_info", Json.arr [Json.str "c"]),
      ("withheld_information", Json.arr [Json.str "w"]),
      ("persona", Json.obj [("voice_description", Json.str "V")]),
      ("dialogue_directions", Json.str "D"),
      ("response_behavior", Json.arr [Json.str "r"]),
      ("opening_line", Json.str "O"),
      ("do_not_say", Json.arr [Json.str "d"]),
      ("behavior_notes", Json.str "B")])
    = some (String.intercalate "\n\n"
        ["## Role\nR",
         "## Caller personal details\n- name: Maria",
         "## Scenario summary (ground truth)\nS",
         "## Critical information to convey (reveal when the operator asks; do not dump all at once)\n- c",
         "## Details that emerge with operator probing\n- w\nThese are NOT things you are purposely hiding. They are contextual details that help the operator understand the situation better; they simply don\x27t come up until the operator asks the right questions (e.g. suspect description, layout, who else is present). When the operator probes or asks relevant questions, provide these details naturally.",
         "## Voice / how to speak\nYou sound like: V",
         "## Dialogue / acting directions\nD",
         "## How to react to the operator\n- r",
         "## Opening line\nWhen the call connects, start with something like: \"O\"",
         "## Do NOT say (stay in character)\n- d",
         "## Behavioral notes\nB"]) :=
  by
  have h : composeParts (Json.obj [
      ("role_instruction", Json.str "R"),
      ("scenario", Json.obj [("caller_profile", Json.obj [("name", Json.str "Maria")])]),
      ("scenario_summary_for_agent", Json.str "S"),
      ("critical_info", Json.arr [Json.str "c"]),
      ("withheld_information", Json.arr [Json.str "w"]),
      ("persona", Json.obj [("voice_description", Json.str "V")]),
      ("dialogue_directions", Json.str "D"),
      ("response_behavior", Json.arr [Json.str "r"]),
      ("opening_line", Json.str "O"),
      ("do_not_say", Json.arr [Json.str "d"]),
      ("behavior_notes", Json.str "B")])
    = some [some "## Role\nR",
        some "## Caller personal details\n- name: Maria",
        some "## Scenario summary (ground truth)\nS",
        some "## Critical information to convey (reveal when the operator asks; do not dump all at once)\n- c",
        some "## Details that emerge with operator probing\n- w\nThese are NOT things you are purposely hiding. They are contextual details that help the operator understand the situation better; they simply don\x27t come up until the operator asks the right questions (e.g. suspect description, layout, who else is present). When the operator probes or asks relevant questions, provide these details naturally.",
        some "## Voice / how to speak\nYou sound like: V",
        some "## Dialogue / acting directions\nD",
        some "## How to react to the operator\n- r",
        some "## Opening line\nWhen the call connects, start with something like: \"O\"",
        some "## Do NOT say (stay in character)\n- d",
        some "## Behavioral notes\nB"] := rfl
  exact ⟨h, (c2_ordering_law _ _ _ _ _ _ _ _ _ _ _ _ h).1⟩

/-- C1 witness: a concrete payload with two present sections; removing
role_instruction yields the prompt with exactly the Role section gone. -/
theorem c1_omission_law_witness :
    composeParts (Json.obj [("role_instruction", Json.str "R"),
        ("critical_info", Json.arr [Json.str "a"])])
      = some [some "## Role\nR", none, none,
          some "## Critical information to convey (reveal when the operator asks; do not dump all at once)\n- a",
          none, none, none, none, none, none, none] ∧
    build_voice_agent_system_prompt (pyRemove (Json.obj [("role_instruction", Json.str "R"),
        ("critical_info", Json.arr [Json.str "a"])]) "role_instruction")
      = some (String.intercalate "\n\n"
          (([some "## Role\nR", none, none,
             some "## Critical information to convey (reveal when the operator asks; do not dump all at once)\n- a",
             none, none, none, none, none, none, none].set 0 none).filterMap id)) := by
  have h : composeParts (Json.obj [("role_instruction", Json.str "R"),
        ("critical_info", Json.arr [Json.str "a"])])
      = some [some "## Role\nR", none, none,
          some "## Critical information to convey (reveal when the operator asks; do not dump all at once)\n- a",
          none, none, none, none, none, none, none] := rfl
  exact ⟨h, (c1_omission_law _ _ h).2.1⟩

theorem lookupKey_fixId_ne (svs : List (String × Json)) (freshId : String) (k : String)
    (h : k ≠ "id") : lookupKey (fixId svs freshId) k = lookupKey svs k := by
  unfold fixId
  split
  · rfl
  · exact lookupKey_setKeyList_ne svs "id" k _ h

theorem lookupKey_fixLang_ne (svs : List (String × Json)) (k : String)
    (h : k ≠ "language") : lookupKey (fixLang svs) k = lookupKey svs k := by
  unfold fixLang
  split
  · rfl
  · exact lookupKey_setKeyList_ne svs "language" k _ h

theorem lookupKey_fixLang_language (svs : List (String × Json)) :
    lookupKey (fixLang svs) "language" = some (Json.str "en") := by
  unfold fixLang
  split
  · rename_i hEn
    cases hv : lookupKey svs "language" with
    | none => rw [lookupKeyD, hv] at hEn; simp [isStrEn] at hEn
    | some v =>
        rw [lookupKeyD, hv] at hEn
        cases v with
        | str s =>
            have hse : s = "en" := by simpa [isStrEn] using hEn
            rw [hse]
        | null => simp [isStrEn] at hEn
        | bool b => simp [isStrEn] at hEn
        | num n => simp [isStrEn] at hEn
        | arr xs => simp [isStrEn] at hEn
        | obj kvs => simp [isStrEn] at hEn
  · exact lookupKey_setKeyList_self _ _ _

theorem fixup_inv (payload : Json) (freshId : String) (result : Json)
    (h : fixup payload freshId = some result) :
    ∃ kvs svs, payload = Json.obj kvs ∧
      (lookupKey kvs "scenario").getD (Json.obj []) = Json.obj svs ∧
      result = Json.obj (setKeyList kvs "scenario" (Json.obj (fixLang (fixId svs freshId)))) := by
  cases payload with
  | obj kvs =>
      cases hs : (lookupKey kvs "scenario").getD (Json.obj []) with
      | obj svs =>
          refine ⟨kvs, svs, rfl, hs, ?_⟩
          simp only [fixup, hs] at h
          exact (Option.some_inj.mp h).symm
      | null => simp only [fixup, hs] at h; exact Option.noConfusion h
      | bool b => simp only [fixup, hs] at h; exact Option.noConfusion h
      | num n => simp only [fixup, hs] at h; exact Option.noConfusion h
      | str s => simp only [fixup, hs] at h; exact Option.noConfusion h
      | arr xs => simp only [fixup, hs] at h; exact Option.noConfusion h
  | null => simp [fixup] at h
  | bool b => simp [fixup] at h
  | num n => simp [fixup] at h
  | str s => simp [fixup] at h
  | arr xs => simp [fixup] at h

/-- C3: after a successful normalization, the returned payload's
scenario.language is exactly the string "en", whatever the input held. -/
theorem c3_language_forced_en (payload : Json) (freshId : String) (result : Json)
    (h : fixup payload freshId = some result) :
    ∃ scen, getField result "scenario" = some scen ∧
      getField scen "language" = some (Json.str "en") := by
  obtain ⟨kvs, svs, hp, hs, hr⟩ := fixup_inv payload freshId result h
  subst hp; subst hr
  refine ⟨Json.obj (fixLang (fixId svs freshId)), ?_, ?_⟩
  · exact lookupKey_setKeyList_self kvs "scenario" _
  · exact lookupKey_fixLang_language _

theorem truthy_str (s : String) : truthy (Json.str s) = !(s == "") := rfl

theorem scenario_id_string_ne_empty (freshId : String) : ("scenario-" ++ freshId) ≠ "" := by
  intro he
  have hl := congrArg String.length he
  rw [String.length_append] at hl
  have h9 : "scenario-".length = 9 := rfl
  have h0 : ("" : String).length = 0 := rfl
  rw [h9, h0] at hl
  omega

theorem lookupKey_fixId_id_truthy (svs : List (String × Json)) (freshId : String) :
    ∃ idv, lookupKey (fixId svs freshId) "id" = some idv ∧ truthy idv = true := by
  unfold fixId
  split
  · rename_i hT
    cases hv : lookupKey svs "id" with
    | none =>
        rw [lookupKeyD, hv] at hT
        simp [truthy_null] at hT
    | some v =>
        refine ⟨v, rfl, ?_⟩
        rw [lookupKeyD, hv] at hT
        simpa using hT
  · refine ⟨Json.str ("scenario-" ++ freshId), lookupKey_setKeyList_self _ _ _, ?_⟩
    rw [truthy_str]
    simp [scenario_id_string_ne_empty freshId]

/-- C4: after a successful normalization the result has a truthy (non-empty)
scenario.id; a non-empty string id is kept unchanged, and a missing, None or
empty-string id is replaced by the freshly generated identifier. -/
theorem c4_id_repair (payload : Json) (freshId : String) (result : Json)
    (h : fixup payload freshId = some result) :
    ∃ scen, getField result "scenario" = some scen ∧
      (∃ idv, getField scen "id" = some idv ∧ truthy idv = true) ∧
      (∀ s : String, s ≠ "" →
        getField ((getField payload "scenario").getD (Json.obj [])) "id" = some (Json.str s) →
        getField scen "id" = some (Json.str s)) ∧
      ((getField ((getField payload "scenario").getD (Json.obj [])) "id" = none ∨
        getField ((getField payload "scenario").getD (Json.obj [])) "id" = some Json.null ∨
        getField ((getField payload "scenario").getD (Json.obj [])) "id" = some (Json.str "")) →
        getField scen "id" = some (Json.str ("scenario-" ++ freshId))) := by
  obtain ⟨kvs, svs, hp, hs, hr⟩ := fixup_inv payload freshId result h
  subst hp; subst hr
  have hfl : lookupKey (fixLang (fixId svs freshId)) "id"
      = lookupKey (fixId svs freshId) "id" := lookupKey_fixLang_ne _ _ (by decide)
  refine ⟨Json.obj (fixLang (fixId svs freshId)),
    lookupKey_setKeyList_self kvs "scenario" _, ?_, ?_, ?_⟩
  · obtain ⟨idv, hidv, ht⟩ := lookupKey_fixId_id_truthy svs freshId
    refine ⟨idv, ?_, ht⟩
    show lookupKey (fixLang (fixId svs freshId)) "id" = some idv
    rw [hfl, hidv]
  · intro s hsne hid
    simp only [getField] at hid
    rw [hs] at hid
    have hid' : lookupKey svs "id" = some (Json.str s) := hid
    show lookupKey (fixLang (fixId svs freshId)) "id" = some (Json.str s)
    rw [hfl]
    unfold fixId
    rw [if_pos]
    · exact hid'
    · rw [lookupKeyD, hid', Option.getD_some, truthy_str]
      simpa using hsne
  · intro hcase
    simp only [getField] at hcase
    rw [hs] at hcase
    have hfalse : truthy (lookupKeyD svs "id") = false := by
      rcases hcase with hc | hc | hc
      · have hc' : lookupKey svs "id" = none := hc
        rw [lookupKeyD, hc']; rfl
      · have hc' : lookupKey svs "id" = some Json.null := hc
        rw [lookupKeyD, hc']; rfl
      · have hc' : lookupKey svs "id" = some (Json.str "") := hc
        rw [lookupKeyD, hc']; rfl
    show lookupKey (fixLang (fixId svs freshId)) "id" = some (Json.str ("scenario-" ++ freshId))
    rw [hfl]
    unfold fixId
    rw [if_neg (by simp [hfalse])]
    exact lookupKey_setKeyList_self _ _ _

/-- C5: normalization is a frame on everything except scenario.id and
scenario.language: every top-level field other than scenario, and every
scenario field other than id and language, reads back exactly as in the
parsed input. -/
theorem c5_frame (payload : Json) (freshId : String) (result : Json)
    (h : fixup payload freshId = some result) :
    (∀ k, k ≠ "scenario" → getField result k = getField payload k) ∧
    (∀ k, k ≠ "id" → k ≠ "language" →
      (getField result "scenario").bind (fun scen => getField scen k)
        = getField ((getField payload "scenario").getD (Json.obj [])) k) := by
  obtain ⟨kvs, svs, hp, hs, hr⟩ := fixup_inv payload freshId result h
  subst hp; subst hr
  constructor
  · intro k hk
    show lookupKey (setKeyList kvs "scenario" _) k = lookupKey kvs k
    exact lookupKey_setKeyList_ne kvs "scenario" k _ hk
  · intro k hk1 hk2
    have e1 : getField (Json.obj (setKeyList kvs "scenario"
        (Json.obj (fixLang (fixId svs freshId))))) "scenario"
        = some (Json.obj (fixLang (fixId svs freshId))) :=
      lookupKey_setKeyList_self kvs "scenario" _
    rw [e1]
    show getField (Json.obj (fixLang (fixId svs freshId))) k
        = getField ((getField (Json.obj kvs) "scenario").getD (Json.obj [])) k
    rw [show getField (Json.obj kvs) "scenario" = lookupKey kvs "scenario" from rfl, hs]
    show lookupKey (fixLang (fixId svs freshId)) k = lookupKey svs k
    rw [lookupKey_fixLang_ne _ _ hk2, lookupKey_fixId_ne _ _ _ hk1]

/-- C3 witness: a payload whose scenario.language is "fr" normalizes to
language "en". -/
theorem c3_language_forced_en_witness :
    fixup (Json.obj [("scenario", Json.obj [("language", Json.str "fr"),
        ("id", Json.str "abc")])]) "deadbeef"
      = some (Json.obj [("scenario", Json.obj [("language", Json.str "en"),
        ("id", Json.str "abc")])]) ∧
    (∃ scen, getField (Json.obj [("scenario", Json.obj [("language", Json.str "en"),
        ("id", Json.str "abc")])]) "scenario" = some scen ∧
      getField scen "language" = some (Json.str "en")) := by
  have h : fixup (Json.obj [("scenario", Json.obj [("language", Json.str "fr"),
        ("id", Json.str "abc")])]) "deadbeef"
      = some (Json.obj [("scenario", Json.obj [("language", Json.str "en"),
        ("id", Json.str "abc")])]) := rfl
  exact ⟨h, c3_language_forced_en _ _ _ h⟩

/-- C4 witness: a payload with no scenario.id is assigned the generated id. -/
theorem c4_id_repair_witness :
    fixup (Json.obj [("scenario", Json.obj [("language", Json.str "en")])]) "deadbeef"
      = some (Json.obj [("scenario", Json.obj [("language", Json.str "en"),
          ("id", Json.str "scenario-deadbeef")])]) ∧
    (∃ scen, getField (Json.obj [("scenario", Json.obj [("language", Json.str "en"),
          ("id", Json.str "scenario-deadbeef")])]) "scenario" = some scen ∧
      (∃ idv, getField scen "id" = some idv ∧ truthy idv = true) ∧
      (∀ s : String, s ≠ "" →
        getField ((getField (Json.obj [("scenario", Json.obj [("language", Json.str "en")])])
            "scenario").getD (Json.obj [])) "id" = some (Json.str s) →
        getField scen "id" = some (Json.str s)) ∧
      ((getField ((getField (Json.obj [("scenario", Json.obj [("language", Json.str "en")])])
            "scenario").getD (Json.obj [])) "id" = none ∨
        getField ((getField (Json.obj [("scenario", Json.obj [("language", Json.str "en")])])
            "scenario").getD (Json.obj [])) "id" = some Json.null ∨
        getField ((getField (Json.obj [("scenario", Json.obj [("language", Json.str "en")])])
            "scenario").getD (Json.obj [])) "id" = some (Json.str "")) →
        getField scen "id" = some (Json.str ("scenario-" ++ "deadbeef")))) := by
  have h : fixup (Json.obj [("scenario", Json.obj [("language", Json.str "en")])]) "deadbeef"
      = some (Json.obj [("scenario", Json.obj [("language", Json.str "en"),
          ("id", Json.str "scenario-deadbeef")])]) := rfl
  exact ⟨h, c4_id_repair _ _ _ h⟩

/-- C5 witness: persona and scenario.title read back unchanged after
normalization of a concrete payload. -/
theorem c5_frame_witness :
    fixup (Json.obj [("persona", Json.str "x"),
        ("scenario", Json.obj [("title", Json.str "t"), ("language", Json.str "fr")])]) "ab"
      = some (Json.obj [("persona", Json.str "x"),
        ("scenario", Json.obj [("title", Json.str "t"), ("language", Json.str "en"),
          ("id", Json.str "scenario-ab")])]) ∧
    getField (Json.obj [("persona", Json.str "x"),
        ("scenario", Json.obj [("title", Json.str "t"), ("language", Json.str "en"),
          ("id", Json.str "scenario-ab")])]) "persona"
      = getField (Json.obj [("persona", Json.str "x"),
        ("scenario", Json.obj [("title", Json.str "t"), ("language", Json.str "fr")])]) "persona" ∧
    (getField (Json.obj [("persona", Json.str "x"),
        ("scenario", Json.obj [("title", Json.str "t"), ("language", Json.str "en"),
          ("id", Json.str "scenario-ab")])]) "scenario").bind (fun scen => getField scen "title")
      = getField ((getField (Json.obj [("persona", Json.str "x"),
        ("scenario", Json.obj [("title", Json.str "t"), ("language", Json.str "fr")])])
          "scenario").getD (Json.obj [])) "title" := by
  have h : fixup (Json.obj [("persona", Json.str "x"),
        ("scenario", Json.obj [("title", Json.str "t"), ("language", Json.str "fr")])]) "ab"
      = some (Json.obj [("persona", Json.str "x"),
        ("scenario", Json.obj [("title", Json.str "t"), ("language", Json.str "en"),
          ("id", Json.str "scenario-ab")])]) := rfl
  exact ⟨h, (c5_frame _ _ _ h).1 "persona" (by decide), (c5_frame _ _ _ h).2 "title" (by decide) (by decide)⟩

theorem isInvalid_missing : isInvalidDifficultyErr (.error missingCredentialsError) = false := by
  decide

theorem isInvalid_invalid : isInvalidDifficultyErr (.error invalidDifficultyError) = true := by
  decide

theorem isInvalid_api (msg : String) :
    isInvalidDifficultyErr (.error (.apiError msg)) = false := rfl

theorem isInvalid_json (doc : String) :
    isInvalidDifficultyErr (.error (.jsonDecodeError doc)) = false := rfl

theorem isInvalid_attr (msg : String) :
    isInvalidDifficultyErr (.error (.attributeError msg)) = false := rfl

theorem isInvalid_ok (p : Json) : isInvalidDifficultyErr (.ok p) = false := rfl

/-- C6: generate_scenario raises the InvalidDifficulty error exactly when
the difficulty argument is outside the three literals easy, medium, hard,
whatever the environment, fresh id, collaborator response or parse
behaviour are. -/
theorem c6_invalid_difficulty (env : GenEnv) (freshId difficulty : String) :
    isInvalidDifficultyErr (generate_scenario env freshId difficulty)
      = !(validDifficulties.contains difficulty) := by
  unfold generate_scenario
  by_cases hd : validDifficulties.contains difficulty = true
  · rw [hd]
    simp only [Bool.not_true, Bool.false_eq_true, if_false]
    by_cases hk : truthyStr env.apiKey = true
    · rw [hk]
      simp only [Bool.not_true, Bool.false_eq_true, if_false]
      cases env.chatResponse with
      | error msg => exact isInvalid_api msg
      | ok content =>
          cases hp : env.parse content with
          | none => simp [hp, isInvalid_json]
          | some payload =>
              cases hf : fixup payload freshId with
              | none => simp [hp, hf, isInvalid_attr]
              | some p => simp [hp, hf, isInvalid_ok]
    · have hk' : truthyStr env.apiKey = false := by rwa [Bool.not_eq_true] at hk
      rw [hk']
      simp only [Bool.not_false, if_true]
      exact isInvalid_missing
  · have hd' : validDifficulties.contains difficulty = false := by rwa [Bool.not_eq_true] at hd
    rw [hd']
    simp only [Bool.not_false, if_true]
    exact isInvalid_invalid

/-- C7: when the collaborator responds with text that does not parse as a
single JSON object, generate_scenario fails with the JSON decode error that
carries the whole offending text (retrievable via docOf), and never returns
a substituted payload. -/
theorem c7_malformed_payload (env : GenEnv) (freshId difficulty content : String)
    (hd : validDifficulties.contains difficulty = true)
    (hk : truthyStr env.apiKey = true)
    (hc : env.chatResponse = .ok content)
    (hp : env.parse content = none) :
    generate_scenario env freshId difficulty = .error (.jsonDecodeError content) ∧
    docOf (.jsonDecodeError content) = some content ∧
    ∀ p, generate_scenario env freshId difficulty ≠ .ok p := by
  have hg : generate_scenario env freshId difficulty = .error (.jsonDecodeError content) := by
    unfold generate_scenario
    rw [hd, hk]
    simp [hc, hp]
  exact ⟨hg, rfl, fun p hp2 => by rw [hg] at hp2; exact Except.noConfusion hp2⟩

/-- C9: with a valid difficulty but absent or empty credentials,
generate_scenario fails with the MissingCredentials error, which differs
from the InvalidDifficulty error and from every error any other failure
path produces. -/
theorem c9_missing_credentials (env : GenEnv) (freshId difficulty : String)
    (hd : validDifficulties.contains difficulty = true)
    (hk : truthyStr env.apiKey = false) :
    generate_scenario env freshId difficulty = .error missingCredentialsError ∧
    missingCredentialsError ≠ invalidDifficultyError ∧
    (∀ doc, missingCredentialsError ≠ .jsonDecodeError doc) ∧
    (∀ msg, missingCredentialsError ≠ .apiError msg) ∧
    (∀ msg, missingCredentialsError ≠ .attributeError msg) := by
  refine ⟨?_, by decide, fun doc => by simp [missingCredentialsError],
    fun msg => by simp [missingCredentialsError], fun msg => by simp [missingCredentialsError]⟩
  unfold generate_scenario
  rw [hd, hk]
  simp

theorem profileEntry_eq_obj (v : Json) (svs : List (String × Json))
    (hp : pyOr v (Json.obj []) = Json.obj svs) :
    profileEntry v = cpPart (pyOr (lookupKeyD svs "caller_profile") (Json.obj [])) := by
  unfold profileEntry
  rw [hp]

/-- C8 counterexample: build_voice_agent_system_prompt is not total. On the
payload dict with scenario set to the string "oops" the Python code raises
AttributeError at scenario.get("caller_profile"), modelled by none. -/
theorem c8_compose_total_counterexample :
    build_voice_agent_system_prompt (Json.obj [("scenario", Json.str "oops")]) = none := rfl

/-- C8 amended: build_voice_agent_system_prompt returns a string for every
payload dict whose scenario, scenario.caller_profile and persona values are
each absent, falsy or dicts (safeShape); absent fields simply omit their
sections, and the fully empty payload yields the empty string. -/
theorem c8_compose_total_amended :
    (∀ p, safeShape p = true → ∃ s, build_voice_agent_system_prompt p = some s) ∧
    build_voice_agent_system_prompt (Json.obj []) = some "" := by
  constructor
  · intro p hs
    cases p with
    | obj kvs =>
        simp only [safeShape, Bool.and_eq_true] at hs
        obtain ⟨hs1, hs2⟩ := hs
        have h2 : ∃ t2, profileEntry (lookupKeyD kvs "scenario") = some t2 := by
          cases hv : pyOr (lookupKeyD kvs "scenario") (Json.obj []) with
          | obj svs =>
              have hs1' : isObjJ (pyOr (lookupKeyD svs "caller_profile") (Json.obj [])) = true := by
                rw [hv] at hs1; exact hs1
              cases hw : pyOr (lookupKeyD svs "caller_profile") (Json.obj []) with
              | obj cvs => exact ⟨_, by rw [profileEntry_eq_obj _ svs hv, hw]; rfl⟩
              | null => rw [hw] at hs1'; exact absurd hs1' (by decide)
              | bool b => rw [hw] at hs1'; simp [isObjJ] at hs1'
              | num n => rw [hw] at hs1'; simp [isObjJ] at hs1'
              | str s => rw [hw] at hs1'; simp [isObjJ] at hs1'
              | arr xs => rw [hw] at hs1'; simp [isObjJ] at hs1'
          | null => rw [hv] at hs1; exact absurd hs1 (by decide)
          | bool b => rw [hv] at hs1; exact absurd hs1 (Bool.false_ne_true)
          | num n => rw [hv] at hs1; exact absurd hs1 (Bool.false_ne_true)
          | str s => rw [hv] at hs1; exact absurd hs1 (Bool.false_ne_true)
          | arr xs => rw [hv] at hs1; exact absurd hs1 (Bool.false_ne_true)
        have h6 : ∃ t6, voiceEntry (lookupKeyD kvs "persona") = some t6 := by
          cases hv : pyOr (lookupKeyD kvs "persona") (Json.obj []) with
          | obj pvs => exact ⟨_, voiceEntry_eq_obj _ pvs hv⟩
          | null => rw [hv] at hs2; simp [isObjJ] at hs2
          | bool b => rw [hv] at hs2; simp [isObjJ] at hs2
          | num n => rw [hv] at hs2; simp [isObjJ] at hs2
          | str s => rw [hv] at hs2; simp [isObjJ] at hs2
          | arr xs => rw [hv] at hs2; simp [isObjJ] at hs2
        obtain ⟨t2, h2⟩ := h2
        obtain ⟨t6, h6⟩ := h6
        exact ⟨_, build_of_parts _ _ (composeParts_obj kvs t2 t6 h2 h6)⟩
    | null => simp [safeShape] at hs
    | bool b => simp [safeShape] at hs
    | num n => simp [safeShape] at hs
    | str s => simp [safeShape] at hs
    | arr xs => simp [safeShape] at hs
  · rfl

/-- C8 witness: a minimal payload with only a role instruction satisfies the
shape condition and composes successfully. -/
theorem c8_compose_total_witness :
    safeShape (Json.obj [("role_instruction", Json.str "hi")]) = true ∧
    (∃ s, build_voice_agent_system_prompt
        (Json.obj [("role_instruction", Json.str "hi")]) = some s) :=
  ⟨rfl, c8_compose_total_amended.1 _ rfl⟩

/-- C10: for each of the four list-rendered sections, a present but
non-list value makes the composer behave exactly as if the field were
absent: the section entry is omitted (none, not a failure) and the whole
prompt equals the prompt of the payload with the field removed. -/
theorem c10_nonlist_sections (p v : Json) (hv : isArr v = false) :
    (build_voice_agent_system_prompt (pySet p "critical_info" v)
      = build_voice_agent_system_prompt (pyRemove p "critical_info")) ∧
    criticalEntry v = none ∧
    (build_voice_agent_system_prompt (pySet p "withheld_information" v)
      = build_voice_agent_system_prompt (pyRemove p "withheld_information")) ∧
    withheldEntry v = none ∧
    (build_voice_agent_system_prompt (pySet p "response_behavior" v)
      = build_voice_agent_system_prompt (pyRemove p "response_behavior")) ∧
    responseEntry v = none ∧
    (build_voice_agent_system_prompt (pySet p "do_not_say" v)
      = build_voice_agent_system_prompt (pyRemove p "do_not_say")) ∧
    doNotEntry v = none := by
  have hc : criticalEntry v = none := listSection_not_arr _ _ _ hv
  have hw : withheldEntry v = none := listSection_not_arr _ _ _ hv
  have hr : responseEntry v = none := listSection_not_arr _ _ _ hv
  have hd : doNotEntry v = none := listSection_not_arr _ _ _ hv
  refine ⟨?_, hc, ?_, hw, ?_, hr, ?_, hd⟩
  · cases p with
    | obj kvs =>
        simp [build_voice_agent_system_prompt, composeParts, pySet, pyRemove,
          lookupKeyD_setKeyList_ne, lookupKeyD_removeKeyList_ne,
          lookupKeyD_setKeyList_self, lookupKeyD_removeKeyList_self,
          hc, criticalEntry_none_null]
    | null => rfl
    | bool b => rfl
    | num n => rfl
    | str s => rfl
    | arr xs => rfl
  · cases p with
    | obj kvs =>
        simp [build_voice_agent_system_prompt, composeParts, pySet, pyRemove,
          lookupKeyD_setKeyList_ne, lookupKeyD_removeKeyList_ne,
          lookupKeyD_setKeyList_self, lookupKeyD_removeKeyList_self,
          hw, withheldEntry_none_null]
    | null => rfl
    | bool b => rfl
    | num n => rfl
    | str s => rfl
    | arr xs => rfl
  · cases p with
    | obj kvs =>
        simp [build_voice_agent_system_prompt, composeParts, pySet, pyRemove,
          lookupKeyD_setKeyList_ne, lookupKeyD_removeKeyList_ne,
          lookupKeyD_setKeyList_self, lookupKeyD_removeKeyList_self,
          hr, responseEntry_none_null]
    | null => rfl
    | bool b => rfl
    | num n => rfl
    | str s => rfl
    | arr xs => rfl
  · cases p with
    | obj kvs =>
        simp [build_voice_agent_system_prompt, composeParts, pySet, pyRemove,
          lookupKeyD_setKeyList_ne, lookupKeyD_removeKeyList_ne,
          lookupKeyD_setKeyList_self, lookupKeyD_removeKeyList_self,
          hd, doNotEntry_none_null]
    | null => rfl
    | bool b => rfl
    | num n => rfl
    | str s => rfl
    | arr xs => rfl

/-- C7 witness: the raw text "\x7bnot json" does not parse; generation fails
with the decode error carrying that exact text. -/
theorem c7_malformed_payload_witness :
    generate_scenario ⟨some "k", Except.ok "\x7bnot json", fun _ => none⟩ "ab" "easy"
      = Except.error (PyError.jsonDecodeError "\x7bnot json") ∧
    docOf (PyError.jsonDecodeError "\x7bnot json") = some "\x7bnot json" := by
  have h := c7_malformed_payload ⟨some "k", Except.ok "\x7bnot json", fun _ => none⟩
    "ab" "easy" "\x7bnot json" (by decide) (by decide) rfl rfl
  exact ⟨h.1, h.2.1⟩

/-- C9 witness: with difficulty "easy" and no api key in the environment the
generator fails with the MissingCredentials error. -/
theorem c9_missing_credentials_witness :
    generate_scenario ⟨none, Except.ok "x", fun _ => none⟩ "ab" "easy"
      = Except.error missingCredentialsError ∧
    missingCredentialsError ≠ invalidDifficultyError := by
  have h := c9_missing_credentials ⟨none, Except.ok "x", fun _ => none⟩ "ab" "easy"
    (by decide) rfl
  exact ⟨h.1, h.2.1⟩

/-- C10 witness: replacing the critical_info list by the string "x" omits
the section exactly as removing the field would. -/
theorem c10_nonlist_sections_witness :
    (build_voice_agent_system_prompt (pySet
        (Json.obj [("critical_info", Json.arr [Json.str "a"])]) "critical_info" (Json.str "x"))
      = build_voice_agent_system_prompt (pyRemove
        (Json.obj [("critical_info", Json.arr [Json.str "a"])]) "critical_info")) ∧
    criticalEntry (Json.str "x") = none := by
  have h := c10_nonlist_sections (Json.obj [("critical_info", Json.arr [Json.str "a"])])
    (Json.str "x") rfl
  exact ⟨h.1, h.2.1⟩
